import Mathlib

/-!
Verification of the AutoTestGen core against its natural-language
specification.  Shallow embedding of the relevant parts of the source:

* `TestGenerator.generate_tests_pipeline` (src/AutoTestGen/test_generator.py)
  — the iteration controller: pre-reduction over multiple samples and the
  repair loop, with the completion service (`gen`), the language adapter's
  post-processing (`post`) and the sandboxed execution (`runC`) as
  function parameters, exactly as the controller treats them.
* the prompt templates and helpers (src/AutoTestGen/templates.py),
* `compute_coverage` / `collect_executed_missing_lines` / `find_lines`
  (src/AutoTestGen/utils.py),
* `run_tests_with_coverage_python` (src/AutoTestGen/_run_tests_script.py),
* `PythonAdapter.postprocess_resp` and `CodeAnalyser.get_local_calls` with
  the `AstVisitor` (src/AutoTestGen/language_adapters/python_adapter.py).

Python exceptions are modelled as `Option`/`none` results; Python string
truthiness (`if s:`) is `s ≠ ""`, list truthiness is non-emptiness.
-/

namespace AutoTestGen

/-- One chat message, Python side: a dict with keys "role" and "content". -/
structure Msg where
  role : String
  content : String
deriving DecidableEq, Repr, Inhabited

/-- The slice of the execution report that the iteration controller reads:
`test_report["compile_error"]`, `test_report["errors"]`,
`test_report["failures"]` (the last one is carried but, in the source,
never branched on). -/
structure CtrlReport where
  compile_error : Option String
  errors : List (String × String)
  failures : List (String × String)
deriving DecidableEq, Repr

/-- Python truthiness of a `str | None` value: `None` and `""` are falsy. -/
def pyTruthy (o : Option String) : Bool :=
  o.getD "" != ""

/-- `templates.list_errors`: numbered "i. Test id failed with error: msg"
lines, numbering from 1, joined with newlines. -/
def listErrors (errors : List (String × String)) : String :=
  "\n".intercalate ((List.range errors.length).zip errors |>.map
    (fun p => toString (p.1 + 1) ++ ". Test " ++ p.2.1
      ++ " failed with error: " ++ p.2.2))

/-- `templates.combine_samples`: numbered response/result pairs. -/
def combineSamples (samples : List (String × String)) : String :=
  "\n".intercalate ((List.range samples.length).zip samples |>.map
    (fun p => toString (p.1 + 1) ++ ". Response:\n" ++ p.2.1
      ++ "\nResult: " ++ p.2.2))

/-- `templates.COMPILING_ERROR_REPROMPT`, formatted. -/
def compilingErrorReprompt (errorMsg language : String) : String :=
  "The code that you have provided failed to compile with the following "
    ++ "error:\n" ++ errorMsg
    ++ "\nTry to fix the error and resubmit your response.\n"
    ++ "Your response should still be just a valid " ++ language
    ++ " code without explanation or any other text."

/-- `templates.TEST_ERROR_REPROMPT`, formatted (the source template has no
newline between the error list and "Try to fix them"). -/
def testErrorReprompt (idErrorStr language : String) : String :=
  "While running the tests following errors occured:\n" ++ idErrorStr
    ++ "Try to fix them and resubmit your response.\nYour response should "
    ++ "still be just a valid " ++ language
    ++ " code without explanation or any other text."

/-- `templates.COMBINING_SAMPLES_PROMPT`, formatted. -/
def combiningSamplesPrompt (initialPrompt : String) (nSamples : Nat)
    (combinedSamples language : String) : String :=
  "For the following prompt:\n" ++ initialPrompt
    ++ "\nYou have generated following " ++ toString nSamples
    ++ " responses, which have resulted in the subsequent outcomes:\n"
    ++ combinedSamples
    ++ "\nConsidering all the provided responses and their corresponding "
    ++ "outcomes, generate a single best response. Your response should "
    ++ "still be just a valid " ++ language
    ++ " code without explanation or any other text."

/-- Prefix of a failed sample outcome in the pre-reduction step
(`generate_tests_pipeline`, local `error_pre`). -/
def errorPre : String :=
  "Executing tests failed with the following error:\n"

/-- Outcome of a passing sample in the pre-reduction step
(`generate_tests_pipeline`, local `success_pre`; typo from the source). -/
def successPre : String :=
  "Tests were succesfully executed."

/-- The branch of `generate_tests_pipeline`'s repair loop on a report:
`some repromptText` when the controller transitions to REPROMPTING,
`none` when it accepts (breaks).  Mirrors the source's
`if test_report["compile_error"]: … elif test_report["errors"]: … else:
break` — `failures` is never consulted. -/
def controllerNewPrompt (language : String) (r : CtrlReport) :
    Option String :=
  if pyTruthy r.compile_error then
    some (compilingErrorReprompt (r.compile_error.getD "") language)
  else if r.errors.isEmpty then
    none
  else
    some (testErrorReprompt (listErrors r.errors) language)

/-- The sample outcome string computed for each sample during
pre-reduction (`generate_tests_pipeline`, the `for resp in response:`
loop); like the repair loop it ignores `failures`. -/
def sampleOutcome (r : CtrlReport) : String :=
  if pyTruthy r.compile_error then
    errorPre ++ r.compile_error.getD ""
  else if r.errors.isEmpty then
    successPre
  else
    errorPre ++ listErrors r.errors

/-- Result of `generate_tests_pipeline`: the returned dict
`{"messages": …, "test": …, "report": …}` plus `evals`, the number of
post-process/evaluate cycles the repair loop performed (instrumentation
for stating the iteration bound; not part of the Python return value). -/
structure PipelineResult where
  messages : List Msg
  test : String
  report : CtrlReport
  evals : Nat
deriving DecidableEq, Repr

/-- The `for iter in range(max_iter):` repair loop of
`generate_tests_pipeline`.  Per iteration: post-process the current
response, execute it (`runC`), branch via `controllerNewPrompt`; on
REPROMPTING extend the conversation with the rejected candidate as an
assistant turn and the corrective user turn, request one new completion,
and continue.  On exhaustion the source falls out of the loop and
returns the last attempted candidate and its report (the completion
requested in the final failing iteration is discarded).  The `fuel = 0`
case is unreachable from the pipeline for `max_iter ≥ 1` (in Python,
`max_iter = 0` would raise `UnboundLocalError` on `resp_post`). -/
def pipelineLoop (gen : List Msg → Nat → List String)
    (post : String → String) (runC : String → CtrlReport)
    (language : String) :
    Nat → List Msg → List String → PipelineResult
  | 0, conv, _ => ⟨conv, "", ⟨none, [], []⟩, 0⟩
  | fuel + 1, conv, response =>
    let p := post (response.getD 0 "")
    let r := runC p
    match controllerNewPrompt language r with
    | none => ⟨conv, p, r, 1⟩
    | some np =>
      let conv2 := conv ++ [⟨"assistant", p⟩, ⟨"user", np⟩]
      let response2 := gen conv2 1
      match fuel with
      | 0 => ⟨conv2, p, r, 1⟩
      | f + 1 =>
        let res := pipelineLoop gen post runC language (f + 1) conv2 response2
        ⟨res.messages, res.test, res.report, res.evals + 1⟩

/-- `TestGenerator.generate_tests_pipeline`.  `gen conv n` models
`_generate_tests(conv, n, temp)` (the completion service), `post` models
`_adapter.postprocess_resp(·, obj_name=obj_name)`, `runC` models
`run_tests_in_container`.  When the initial request yields more than one
sample, the pre-reduction step executes every sample, overwrites the
content of `initial_prompt[1]` in place with the combining prompt, and
requests a single synthesis completion before entering the repair loop. -/
def generateTestsPipeline (gen : List Msg → Nat → List String)
    (post : String → String) (runC : String → CtrlReport)
    (language : String) (initialPrompt : List Msg)
    (nSamples maxIter : Nat) : PipelineResult :=
  let response := gen initialPrompt nSamples
  if 1 < response.length then
    let sampleResults := response.map
      (fun resp => (resp, sampleOutcome (runC (post resp))))
    let user1 := initialPrompt.getD 1 ⟨"", ""⟩
    let newContent := combiningSamplesPrompt user1.content nSamples
      (combineSamples sampleResults) language
    let prompt2 := initialPrompt.set 1 ⟨user1.role, newContent⟩
    pipelineLoop gen post runC language maxIter prompt2 (gen prompt2 1)
  else
    pipelineLoop gen post runC language maxIter initialPrompt response

/-! ## Python string primitives

The Python string methods the embedded code uses (`str.strip`,
`str.split`, `str.startswith`), written out over the character list of
the string so that every definition evaluates by kernel reduction. -/

/-- Python `s.strip()`: remove leading and trailing whitespace. -/
def pyStrip (s : String) : String :=
  ⟨((s.data.dropWhile Char.isWhitespace).reverse.dropWhile
    Char.isWhitespace).reverse⟩

/-- Split a character list at every occurrence of `sep` (Python
`str.split(sep)` with a one-character separator: always at least one
piece, empty pieces kept). -/
def splitCharList (sep : Char) : List Char → List (List Char)
  | [] => [[]]
  | ch :: rest =>
    let r := splitCharList sep rest
    if ch = sep then [] :: r
    else
      match r with
      | [] => [[ch]]
      | h :: t => (ch :: h) :: t

/-- Python `s.split(sep)` for a one-character separator. -/
def pySplit (sep : Char) (s : String) : List String :=
  (splitCharList sep s.data).map (fun l => ⟨l⟩)

/-- Python `s.startswith(p)`. -/
def pyStartsWith (s p : String) : Bool :=
  p.data.isPrefixOf s.data

/-! ## Python float arithmetic

`compute_coverage` evaluates `int(len(e) / (len(e) + len(m)) * 100)` in
IEEE binary64 arithmetic: CPython's `int / int` true division and the
float product are both correctly rounded (round to nearest, ties to
even), and `int()` truncates.  The model below implements exactly that
over ℕ/ℤ, representing a non-negative double as a dyadic pair
`mantissa * 2 ^ exponent`.  The exponent is unbounded (no overflow or
subnormals — a line count large enough to reach them, beyond `2^1022`
lines, is unreachable).  Validated pointwise against CPython on every
pair `0 ≤ e ≤ d ≤ 120` and on random and boundary inputs up to `10^6`. -/

/-- Round `num / den` to the nearest integer, ties to even
(`den ≥ 1`). -/
def roundHalfEven (num den : Nat) : Nat :=
  let q := num / den
  let r := num % den
  if 2 * r < den then q
  else if den < 2 * r then q + 1
  else if q % 2 = 0 then q else q + 1

/-- Floor of the base-2 logarithm of `n / d` (both at least 1),
computed by scaling the numerator into the integer range. -/
def floorLog2Rat (n d : Nat) : Int :=
  let K := Nat.log2 d + 1
  (Nat.log2 (n * 2 ^ K / d) : Int) - K

/-- The binary64 value nearest to `n / d` (round to nearest, ties to
even) as a dyadic pair: the rational is scaled so that its 53-bit
significand is an integer rounding of `n * 2 ^ (52 - s) / d`. -/
def pyFloatOfRat (n d : Nat) : Nat × Int :=
  if n = 0 then (0, 0)
  else
    let s := floorLog2Rat n d
    let e52 : Int := 52 - s
    let num := if 0 ≤ e52 then n * 2 ^ e52.toNat else n
    let den := if 0 ≤ e52 then d else d * 2 ^ (-e52).toNat
    (roundHalfEven num den, s - 52)

/-- Round the dyadic value `M * 2 ^ E` back to a 53-bit significand
(needed after an integer product). -/
def roundMantissa53 (M : Nat) (E : Int) : Nat × Int :=
  if M < 2 ^ 53 then (M, E)
  else
    let sh := Nat.log2 M - 52
    (roundHalfEven M (2 ^ sh), E + sh)

/-- Binary64 product of a dyadic float with an exactly representable
integer `k` (here always 100): round the exact product. -/
def pyFloatMulNat (a : Nat × Int) (k : Nat) : Nat × Int :=
  roundMantissa53 (a.1 * k) a.2

/-- Python `int()` truncation of a non-negative dyadic value. -/
def dyadicFloor (a : Nat × Int) : Nat :=
  if 0 ≤ a.2 then a.1 * 2 ^ a.2.toNat else a.1 / 2 ^ (-a.2).toNat

/-- Python `int(e / d * 100)` for non-negative ints with `d ≥ 1`. -/
def pyIntTimes100 (e d : Nat) : Nat :=
  dyadicFloor (pyFloatMulNat (pyFloatOfRat e d) 100)

/-! ## Coverage aggregation (src/AutoTestGen/utils.py) -/

/-- One persisted test record as `compute_coverage` reads it: the
`"executed_lines"` and `"missing_lines"` entries of its metadata dict. -/
structure TestMeta where
  executed_lines : List Nat
  missing_lines : List Nat
deriving DecidableEq, Repr

/-- `utils.find_lines`, over the two sources split into lines
(`module_source.split("\n")` and `obj_source.split("\n")`), so both line
lists are non-empty in every actual call.  Each line is `.strip()`ed
(`pyStrip`), and the first index whose block of
`target` length equals the stripped object lines yields
`(index + 1, index + len(target))` — the source also compares
`lines[index] == target_lines[0]`, which is redundant for a non-empty
target.  `none` models the `UnboundLocalError` raised when no block
matches (`start_line` is never assigned), and the `IndexError` on an
empty target list. -/
def findLines (moduleLines objLines : List String) : Option (Nat × Nat) :=
  let target := objLines.map pyStrip
  let lines := moduleLines.map pyStrip
  if target.isEmpty then none
  else
    match (List.range lines.length).find?
        (fun i => (lines.drop i).take target.length == target) with
    | some i => some (i + 1, i + target.length)
    | none => none

/-- `utils.collect_executed_missing_lines`, given the located
`(st, end)` range: union the records' executed (resp. missing) lines,
keep those within the range, and subtract executed from missing. -/
def collectExecutedMissingLines (st en : Nat) (testMetadata : List TestMeta) :
    Finset Nat × Finset Nat :=
  let execs := ((testMetadata.flatMap (·.executed_lines)).filter
    (fun it => st ≤ it && it ≤ en)).toFinset
  let miss := ((testMetadata.flatMap (·.missing_lines)).filter
    (fun it => st ≤ it && it ≤ en)).toFinset
  (execs, miss \ execs)

/-- `utils.compute_coverage`.  An empty record list returns 0 before
`find_lines` is ever called.  Otherwise the source computes
`int(len(executed) / (len(executed) + len(missing)) * 100)` with no
guard: a zero denominator raises `ZeroDivisionError`, modelled as
`none`; `none` also propagates the `find_lines` failure.  The value is
the float expression (`pyIntTimes100`), not the exact-rational floor —
the two differ, e.g. at 29 executed and 71 missing Python returns 28
where the exact floor is 29. -/
def computeCoverage (moduleLines objLines : List String)
    (testMetadata : List TestMeta) : Option Nat :=
  if testMetadata.isEmpty then some 0
  else
    match findLines moduleLines objLines with
    | none => none
    | some (st, en) =>
      let em := collectExecutedMissingLines st en testMetadata
      if em.1.card + em.2.card = 0 then none
      else some (pyIntTimes100 em.1.card (em.1.card + em.2.card))

/-- The executed-line set as the spec words it: union of the records'
executed lines, restricted to the located `[st, en]` range. -/
def coverageExec (st en : Nat) (testMetadata : List TestMeta) : Finset Nat :=
  (testMetadata.flatMap TestMeta.executed_lines).toFinset.filter
    (fun it => st ≤ it ∧ it ≤ en)

/-- The missing-line set as the spec words it: union of the records'
missing lines restricted to the range, minus the executed set. -/
def coverageMiss (st en : Nat) (testMetadata : List TestMeta) : Finset Nat :=
  ((testMetadata.flatMap TestMeta.missing_lines).toFinset.filter
    (fun it => st ≤ it ∧ it ≤ en)) \ coverageExec st en testMetadata

/-! ## The sandbox bootstrap report (src/AutoTestGen/_run_tests_script.py) -/

/-- The `unittest.TestResult` data the bootstrap reads off a completed
test run: `result.testsRun`, `result.errors`, `result.failures` (ids
already stringified). -/
structure TestRes where
  testsRun : Nat
  errors : List (String × String)
  failures : List (String × String)
deriving DecidableEq, Repr

/-- The JSON report dict written by `run_tests_with_coverage_python`.
Every field is optional because the source builds the dict key by key:
`none` models an absent key; `compile_error = some none` models the
key present with JSON `null`. -/
structure RunnerReport where
  tests_ran_n : Option Nat
  errors : Option (List (String × String))
  failures : Option (List (String × String))
  executed_lines : Option (List Nat)
  missing_lines : Option (List Nat)
  compile_error : Option (Option String)
deriving DecidableEq, Repr

/-- The empty metadata dict `test_metadata = dict()`. -/
def emptyRunnerReport : RunnerReport :=
  ⟨none, none, none, none, none, none⟩

/-- `run_tests_with_coverage_python`.  `result` is the outcome of
`_run_tests()`: `.error msg` when importing the candidate raised (the
stringified exception), `.ok` a test result otherwise.  `covFiles`
models the `"files"` dict of the coverage JSON report: `none` when
`cov.json_report` (or reading it back) raises — e.g. coverage collected
no data — in which case the source's bare `except:` only prints and the
still-empty dict is returned; `some []` models a report whose files
dict is empty, where `[*json_report["files"].keys()][0]` raises
`IndexError` after the test fields were already inserted.  Only the
first file's `executed_lines`/`missing_lines` are read. -/
def runTestsWithCoveragePython (result : Except String TestRes)
    (covFiles : Option (List (String × List Nat × List Nat))) :
    RunnerReport :=
  match result with
  | .error e => { emptyRunnerReport with compile_error := some (some e) }
  | .ok res =>
    match covFiles with
    | none => emptyRunnerReport
    | some [] =>
      { emptyRunnerReport with
        tests_ran_n := some res.testsRun
        errors := some res.errors
        failures := some res.failures }
    | some ((_, ex, mi) :: _) =>
      { tests_ran_n := some res.testsRun
        errors := some res.errors
        failures := some res.failures
        executed_lines := some ex
        missing_lines := some mi
        compile_error := some none }

/-- The spec's "never partially filled" invariant on a bootstrap report:
either `compile_error` is set (a string) and every other field is
absent, or `compile_error` is present-but-null and every other field is
populated. -/
def reportWellFormed (r : RunnerReport) : Prop :=
  ((∃ e, r.compile_error = some (some e)) ∧ r.tests_ran_n = none
      ∧ r.errors = none ∧ r.failures = none
      ∧ r.executed_lines = none ∧ r.missing_lines = none)
  ∨ (r.compile_error = some none ∧ r.tests_ran_n.isSome ∧ r.errors.isSome
      ∧ r.failures.isSome ∧ r.executed_lines.isSome
      ∧ r.missing_lines.isSome)

/-! ## The info sheet (src/AutoTestGen/templates.py,
`generate_python_info_sheet`) -/

/-- The `object_type` argument; the source asserts it is `"method"` or
`"function"`. -/
inductive ObjType where
  | method
  | function
deriving DecidableEq, Repr

/-- `templates.generate_python_info_sheet`.  String arguments that are
Python `None` are modelled as `""` (both are falsy where tested, and
`None` is only interpolated when truthy).  Note the source hardcodes
the numbers of the class `__init__` ("2.") and attribute ("3.")
sections while threading the counter `n` for the rest, and the
`local_type_variables` header glues "variables" to "whose" with no
space (both kept). -/
def generatePythonInfoSheet (objectType : ObjType)
    (moduleName imports constants variablesArg localTypeVariables
      localCallDefs : String)
    (className : String := "") (init : String := "")
    (classAttributes : String := "") : String :=
  let intro : String × Nat :=
    match objectType with
    | .method =>
      let s0 := "1. " ++ className ++ " class is defined in the module "
        ++ "called: " ++ moduleName ++ "\n"
      let p1 : String × Nat :=
        if init != "" then
          (s0 ++ "2. Class __init__ definition of " ++ className ++ ":\n"
            ++ init ++ "\n", 3)
        else (s0, 2)
      if classAttributes != "" then
        (p1.1 ++ "3. " ++ className ++ " attributes:" ++ classAttributes
          ++ "\n", p1.2 + 1)
      else p1
    | .function =>
      ("1. Function is defined in the module called: " ++ moduleName
        ++ "\n", 2)
  let p2 : String × Nat :=
    if imports != "" then
      (intro.1 ++ toString intro.2
        ++ ". Following imports were made inside the " ++ moduleName
        ++ " module:\n" ++ imports ++ "\n", intro.2 + 1)
    else intro
  let p3 : String × Nat :=
    if constants != "" then
      (p2.1 ++ toString p2.2
        ++ ". Following constants were imported in the " ++ moduleName
        ++ " module:\n" ++ constants ++ "\n", p2.2 + 1)
    else p2
  let p4 : String × Nat :=
    if variablesArg != "" then
      (p3.1 ++ toString p3.2
        ++ ". Following variables were decleared in the " ++ moduleName
        ++ " module body:\n" ++ variablesArg ++ "\n", p3.2 + 1)
    else p3
  let p5 : String × Nat :=
    if localTypeVariables != "" then
      (p4.1 ++ toString p4.2
        ++ ". Additionally variable types for body-decleared variables"
        ++ "whose types are not obvious:\n" ++ localTypeVariables ++ "\n",
        p4.2 + 1)
    else p4
  if localCallDefs != "" then
    p5.1 ++ toString p5.2
      ++ ". Definitons of functions used inside the definition body:\n"
      ++ localCallDefs
  else p5.1

/-- The five optional sections of a function-target info sheet, in the
order the builder emits them. -/
inductive InfoSection where
  | imports
  | constants
  | variables
  | typeVars
  | callDefs
deriving DecidableEq, Repr

/-- The text of one numbered section, per section kind (headers as the
source emits them). -/
def renderSection (s : InfoSection) (moduleName body : String) (n : Nat) :
    String :=
  match s with
  | .imports =>
    toString n ++ ". Following imports were made inside the " ++ moduleName
      ++ " module:\n" ++ body ++ "\n"
  | .constants =>
    toString n ++ ". Following constants were imported in the " ++ moduleName
      ++ " module:\n" ++ body ++ "\n"
  | .variables =>
    toString n ++ ". Following variables were decleared in the " ++ moduleName
      ++ " module body:\n" ++ body ++ "\n"
  | .typeVars =>
    toString n ++ ". Additionally variable types for body-decleared variables"
      ++ "whose types are not obvious:\n" ++ body ++ "\n"
  | .callDefs =>
    toString n ++ ". Definitons of functions used inside the definition body:\n"
      ++ body

/-- The spec's description of a function-target info sheet: the location
line, then only the non-empty sections in order, numbered contiguously
starting right after the location line's "1.". -/
def functionInfoSheetSpec (moduleName imports constants variablesArg
    localTypeVariables localCallDefs : String) : String :=
  let present := ([(InfoSection.imports, imports),
    (InfoSection.constants, constants), (InfoSection.variables, variablesArg),
    (InfoSection.typeVars, localTypeVariables),
    (InfoSection.callDefs, localCallDefs)]).filter (fun p => p.2 != "")
  "1. Function is defined in the module called: " ++ moduleName ++ "\n"
    ++ String.join ((present.zip (List.range' 2 present.length)).map
      (fun pq => renderSection pq.1.1 moduleName pq.1.2 pq.2))

/-! ## Candidate post-processing
(src/AutoTestGen/language_adapters/python_adapter.py,
`PythonAdapter.postprocess_resp`) -/

/-- The import-insertion step: if no line starts with
`from <module> import <object>` and no line equals
`from <module> import *`, insert the import as the first line. -/
def insertImportStep (modName objName : String) (lines : List String) :
    List String :=
  let importString := "from " ++ modName ++ " import " ++ objName
  let importAsterisk := "from " ++ modName ++ " import *"
  if (lines.filter
      (fun l => pyStartsWith l importString || l == importAsterisk)).isEmpty
  then importString :: lines
  else lines

/-- The runnable-entry-point step: when neither `__main__` guard line is
present, drop the first bare `unittest.main()` line (if any) and append
the guard plus an indented `unittest.main()`. -/
def ensureMainStep (lines : List String) : List String :=
  if !(lines.contains "if __name__ == '__main__':")
      && !(lines.contains "if __name__ == \"__main__\":") then
    (if lines.contains "unittest.main()" then
      lines.erase "unittest.main()"
    else lines)
      ++ ["if __name__ == '__main__':", "    unittest.main()"]
  else lines

/-- The code-fence-stripping step: when a "```python" line is present,
keep only the lines strictly between the first "```python" line and the
first "```" line; `none` models the `ValueError` of `list.index` when
no closing "```" line exists. -/
def stripFenceStep (lines : List String) : Option (List String) :=
  if lines.contains "```python" then
    if lines.contains "```" then
      some ((lines.drop (lines.indexOf "```python" + 1)).take
        (lines.indexOf "```" - (lines.indexOf "```python" + 1)))
    else none
  else some lines

/-- `PythonAdapter.postprocess_resp` on the candidate split into lines:
insert the import, ensure the entry point, then strip the code fence
(in that order, as in the source). -/
def postprocessLines (modName objName test : String) :
    Option (List String) :=
  stripFenceStep (ensureMainStep
    (insertImportStep modName objName (pySplit (Char.ofNat 10) test)))

/-- `PythonAdapter.postprocess_resp`: the final `"\n".join(test_lines)`. -/
def postprocessResp (modName objName test : String) : Option String :=
  (postprocessLines modName objName test).map
    (fun ls => "\n".intercalate ls)

/-! ## The call-slice analysis
(src/AutoTestGen/language_adapters/python_adapter.py, `AstVisitor` and
`CodeAnalyser.get_local_calls`).

The AST is modelled only as deeply as the visitor inspects it.  The
reflection checks against the live module (`_is_class`) are a fixed
oracle `String → Bool`, since `sourced_module` never changes after
`CodeAnalyser.__init__`. -/

/-- Python expressions as far as `_get_function_name` and the visitor
dispatch distinguish them. -/
inductive PyExpr where
  | name : String → PyExpr
  | attribute : PyExpr → String → PyExpr
  | call : PyExpr → List PyExpr → PyExpr
  | constStr : String → PyExpr
  | subscript : PyExpr → PyExpr → PyExpr
  | tuple : List PyExpr → PyExpr
  | otherE : PyExpr

/-- Assignment targets as the visitor distinguishes them (`ast.Name`,
`ast.Tuple`, anything else). -/
inductive PyTarget where
  | nameT : String → PyTarget
  | tupleT : List PyTarget → PyTarget
  | otherT : PyTarget

/-- Statements inside a function body, as far as the visitor dispatch
distinguishes them.  `block` stands for any compound statement whose
children `generic_visit` recurses into. -/
inductive PyStmt where
  | assign : List PyTarget → PyExpr → PyStmt
  | annAssign : PyTarget → PyExpr → Option PyExpr → PyStmt
  | exprStmt : PyExpr → PyStmt
  | block : List PyStmt → PyStmt
  | otherS : PyStmt

/-- `_get_function_name`: the dotted path of a callee expression; `none`
models the fall-through `None` for unhandled node kinds (on which the
source would subsequently fail when concatenating or splitting). -/
def getFunctionName : PyExpr → Option String
  | .name i => some i
  | .attribute v a => (getFunctionName v).map (fun s => s ++ "." ++ a)
  | .call f _ => getFunctionName f
  | .constStr s => some s
  | .subscript v _ => getFunctionName v
  | .tuple _ => none
  | .otherE => none

/-- The mutable state of `AstVisitor` that `get_local_calls` touches:
`func_names` (a Python set) and `instances` (a dict, modelled as an
insertion list whose *last* binding for a key wins, like dict update
order). -/
structure VState where
  funcNames : Finset String
  instances : List (String × String)
deriving DecidableEq

/-- `AstVisitor.restore_visitor`: fresh empty attributes. -/
def emptyVState : VState := ⟨∅, []⟩

/-- Last-binding-wins lookup in a dict modelled as an insertion list. -/
def lookupDict (d : List (String × String)) (k : String) : Option String :=
  (d.reverse.find? (fun p => p.1 == k)).map (·.2)

/-- `visit_Call` body: add the callee's dotted name when truthy. -/
def addCallName (s : VState) : Option String → VState
  | some nm => if nm != "" then { s with funcNames := insert nm s.funcNames } else s
  | none => s

/-- One `instance = ClassName(...)`-style binding recorded by
`visit_Assign` / `visit_AnnAssign`. -/
def addInstance (s : VState) (k v : String) : VState :=
  { s with instances := s.instances ++ [(k, v)] }

mutual

/-- `generic_visit` recursion over an expression: every `ast.Call` met
adds its callee name (`visit_Call` then recurses into the call's own
children). -/
def visitExpr (s : VState) : PyExpr → VState
  | .name _ => s
  | .constStr _ => s
  | .otherE => s
  | .attribute v _ => visitExpr s v
  | .subscript v ix => visitExpr (visitExpr s v) ix
  | .tuple es => visitExprList s es
  | .call f args => visitExprList (visitExpr (addCallName s (getFunctionName f)) f) args

/-- `generic_visit` over a list of child expressions. -/
def visitExprList (s : VState) : List PyExpr → VState
  | [] => s
  | e :: es => visitExprList (visitExpr s e) es

end

/-- `visit_Assign` on one `ast.Name` or tuple-element target whose value
is a call with name `fn`: record an instance when `_is_class` says the
callee is a class, else add the callee to `func_names`.  A `none` name
is skipped (the source would crash inside `_is_class` there). -/
def assignTargetStep (isClass : String → Bool) (s : VState)
    (target : PyTarget) (fn : Option String) : VState :=
  match fn with
  | none => s
  | some f =>
    if isClass f then
      match target with
      | .nameT id => addInstance s id f
      | .tupleT elts =>
        elts.foldl (fun acc t =>
          match t with
          | .nameT id => addInstance acc id f
          | _ => acc) s
      | .otherT => s
    else { s with funcNames := insert f s.funcNames }

/-- `visit_Assign`: only Name/Tuple targets with call (or tuple-of-call)
values are inspected; the visitor does not recurse into the value
(`visit_Assign` never calls `generic_visit`).  In the tuple-to-tuple
case, targets and values are zipped and each call-valued pair handled
on its own; a class instantiation is recorded only for a plain name
target there. -/
def visitAssign (isClass : String → Bool) (s : VState)
    (targets : List PyTarget) (value : PyExpr) : VState :=
  targets.foldl (fun acc target =>
    match target with
    | .nameT id =>
      match value with
      | .call f _ => assignTargetStep isClass acc (.nameT id) (getFunctionName f)
      | _ => acc
    | .tupleT elts =>
      match value with
      | .call f _ => assignTargetStep isClass acc (.tupleT elts) (getFunctionName f)
      | .tuple vals =>
        (elts.zip vals).foldl (fun acc2 tv =>
          match tv.2 with
          | .call f _ =>
            match getFunctionName f with
            | none => acc2
            | some fn =>
              if isClass fn then
                match tv.1 with
                | .nameT id => addInstance acc2 id fn
                | _ => acc2
              else { acc2 with funcNames := insert fn acc2.funcNames }
          | _ => acc2) acc
      | _ => acc
    | .otherT => acc) s

/-- `visit_AnnAssign`: a call value that instantiates a class records an
instance for a plain name target; a bare type hint (no value) whose
hint is a name or a subscript resolving to a class records an
instance likewise.  (For any other hint shape the source reads an
unbound `class_name` — a `NameError` — and for a non-name target an
`AttributeError`; both unreachable shapes are modelled as no-ops.) -/
def visitAnnAssign (isClass : String → Bool) (s : VState)
    (target : PyTarget) (ann : PyExpr) (value : Option PyExpr) :
    VState :=
  let s1 :=
    match value with
    | some (.call f _) =>
      match getFunctionName f with
      | some fn =>
        if isClass fn then
          match target with
          | .nameT id => addInstance s id fn
          | _ => s
        else s
      | none => s
    | _ => s
  match value with
  | none =>
    let className? : Option String :=
      match ann with
      | .name i => some i
      | .subscript _ sl => getFunctionName sl
      | _ => none
    match className? with
    | some cn =>
      if isClass cn then
        match target with
        | .nameT id => addInstance s1 id cn
        | _ => s1
      else s1
    | none => s1
  | some _ => s1

mutual

/-- The visitor's dispatch over one statement of a function body:
`Assign` and `AnnAssign` are handled without recursing into their
children; any other statement is `generic_visit`ed, so calls inside it
are collected. -/
def visitStmt (isClass : String → Bool) (s : VState) : PyStmt → VState
  | .assign targets value => visitAssign isClass s targets value
  | .annAssign t ann v => visitAnnAssign isClass s t ann v
  | .exprStmt e => visitExpr s e
  | .block stmts => visitStmtList isClass s stmts
  | .otherS => s

/-- Visit a list of statements in order. -/
def visitStmtList (isClass : String → Bool) (s : VState) :
    List PyStmt → VState
  | [] => s
  | st :: sts => visitStmtList isClass (visitStmt isClass s st) sts

end

/-- A function or method definition node, as far as `get_local_calls`
reads it: its name, its positional parameter names
(`node.args.args`), and its body. -/
structure PyFunctionDef where
  name : String
  args : List String
  body : List PyStmt

/-- `self.ast_visitor.visit(node)` on a function-definition node: the
base `NodeVisitor` has no `visit_FunctionDef`, so `generic_visit`
descends into the body statements. -/
def visitFunctionDef (isClass : String → Bool) (s : VState)
    (node : PyFunctionDef) : VState :=
  visitStmtList isClass s node.body

/-- The per-module data of `CodeAnalyser` that `get_local_calls` reads.
All of it is computed once in `__init__` (from a copy of the visitor's
module-level results) and never mutated afterwards. -/
structure Analyser where
  isClass : String → Bool
  bodyInstances : List (String × String)
  modulesLocal : List String
  bodyClassNames : List String
  bodyFuncNames : List String

/-- The instance/self-parameter rewriting step of `get_local_calls`: a
dotted call either has its leading self/cls indicator replaced by the
class name (method case; a method without parameters would raise
`IndexError` in the source, modelled as no rewrite) or its leading
instance name replaced by the instance's class (function case).
`class_name` defaults to `None` in the source; interpolating it is
modelled by `Option.getD ""`. -/
def swapCallName (node : PyFunctionDef) (method : Bool)
    (className : Option String) (instances : List (String × String))
    (call : String) : String :=
  let splits := pySplit (Char.ofNat 46) call
  if 1 < splits.length then
    if method then
      match node.args.head? with
      | some indicator =>
        if splits.headD "" == indicator then
          ".".intercalate (className.getD "" :: splits.tail)
        else call
      | none => call
    else
      match lookupDict instances (splits.headD "") with
      | some cls => ".".intercalate (cls :: splits.tail)
      | none => call
  else call

/-- `CodeAnalyser.get_local_calls`.  The incoming visitor state is the
state the shared `AstVisitor` happens to hold (whatever earlier targets
left behind); the method calls `restore_visitor()` first, visits the
node, merges `body_instances` (copied) with the visitor's instances
(enclosed bindings win), rewrites the collected call names, and filters
them down to local definitions other than the target itself.  Returns
the resulting set together with the state the shared visitor is left
in. -/
def getLocalCalls (a : Analyser) (node : PyFunctionDef) (method : Bool)
    (className : Option String) (_visitorState : VState) :
    Finset String × VState :=
  let v := visitFunctionDef a.isClass emptyVState node
  let instances := a.bodyInstances ++ v.instances
  let swapped := v.funcNames.image (swapCallName node method className instances)
  let localClasses := a.modulesLocal ++ a.bodyClassNames
  let localFunctions := a.modulesLocal ++ a.bodyFuncNames
  (swapped.filter (fun nm =>
    (nm ∈ localFunctions ∨ (pySplit (Char.ofNat 46) nm).headD "" ∈ localClasses)
      ∧ nm ≠ node.name), v)

/-! ## Helper lemmas -/

/-- The repair loop only ever appends to the conversation it is given. -/
theorem pipelineLoop_extendsConv (gen : List Msg → Nat → List String)
    (post : String → String) (runC : String → CtrlReport)
    (language : String) :
    ∀ (fuel : Nat) (conv : List Msg) (response : List String),
      conv <+: (pipelineLoop gen post runC language fuel conv response).messages := by
  intro fuel
  induction fuel with
  | zero => intro conv response; exact List.prefix_refl conv
  | succ f ih =>
    intro conv response
    rw [pipelineLoop]
    cases controllerNewPrompt language
        (runC (post (response.getD 0 ""))) with
    | none => exact List.prefix_refl conv
    | some np =>
      cases f with
      | zero => exact List.prefix_append conv _
      | succ f2 =>
        exact (List.prefix_append conv _).trans (ih _ _)

/-- The repair loop, entered with fuel at least 1, performs between 1 and
`fuel` evaluate cycles and returns the last evaluated candidate with the
report that candidate produced. -/
theorem pipelineLoop_spec (gen : List Msg → Nat → List String)
    (post : String → String) (runC : String → CtrlReport)
    (language : String) :
    ∀ (fuel : Nat) (conv : List Msg) (response : List String),
      1 ≤ fuel →
      1 ≤ (pipelineLoop gen post runC language fuel conv response).evals
      ∧ (pipelineLoop gen post runC language fuel conv response).evals ≤ fuel
      ∧ (pipelineLoop gen post runC language fuel conv response).report
          = runC (pipelineLoop gen post runC language fuel conv response).test
      ∧ ∃ resp, (pipelineLoop gen post runC language fuel conv
          response).test = post resp := by
  intro fuel
  induction fuel with
  | zero => intro conv response h; omega
  | succ f ih =>
    intro conv response _
    rw [pipelineLoop]
    cases controllerNewPrompt language
        (runC (post (response.getD 0 ""))) with
    | none =>
      exact ⟨Nat.le_refl 1, Nat.succ_le_succ (Nat.zero_le f), rfl, _, rfl⟩
    | some np =>
      cases f with
      | zero =>
        exact ⟨Nat.le_refl 1, Nat.succ_le_succ (Nat.zero_le 0), rfl, _, rfl⟩
      | succ f2 =>
        refine ⟨Nat.le_add_left 1 _, ?_,
          (ih _ _ (Nat.le_add_left 1 f2)).2.2.1,
          (ih _ _ (Nat.le_add_left 1 f2)).2.2.2⟩
        exact Nat.succ_le_succ ((ih _ _ (Nat.le_add_left 1 f2)).2.1)

/-- `Nat.log2` characterized by the enclosing powers of two (usable on
concrete numerals, where `Nat.log2`'s well-founded recursion does not
reduce). -/
theorem log2_eq_of (n k : Nat) (h1 : 2 ^ k ≤ n) (h2 : n < 2 ^ (k + 1)) :
    Nat.log2 n = k := by
  have h0 : n ≠ 0 := by
    have hp : 1 ≤ 2 ^ k := Nat.one_le_two_pow
    omega
  have ha := (Nat.le_log2 h0).mpr h1
  have hb := (Nat.log2_lt h0).mpr h2
  omega

/-- The float pipeline at the full-coverage point: `L / L` with `L ≥ 1`
is exactly 1.0. -/
theorem pyFloatOfRat_self (L : Nat) (h : 1 ≤ L) :
    pyFloatOfRat L L = (2 ^ 52, -52) := by
  have h0 : L ≠ 0 := by omega
  have hdiv : ∀ b : Nat, L * 2 ^ b / L = 2 ^ b :=
    fun b => Nat.mul_div_cancel_left (2 ^ b) h
  have hlog : floorLog2Rat L L = 0 := by
    simp only [floorLog2Rat, hdiv]
    rw [Nat.log2_eq_log_two, Nat.log_pow (by norm_num)]
    omega
  simp only [pyFloatOfRat, hlog, if_neg h0]
  norm_num
  simp only [roundHalfEven, hdiv, Nat.mul_mod_right]
  rw [if_pos (by omega)]
  decide

/-- Python's `int(L / L * 100)` is exactly 100 for every positive `L`:
`1.0 * 100` is an exact product, so the float idealization does not
enter here. -/
theorem pyIntTimes100_self (L : Nat) (h : 1 ≤ L) :
    pyIntTimes100 L L = 100 := by
  rw [show pyIntTimes100 L L
    = dyadicFloor (pyFloatMulNat (pyFloatOfRat L L) 100) from rfl]
  rw [pyFloatOfRat_self L h]
  have lM : Nat.log2 (2 ^ 52 * 100) = 58 :=
    log2_eq_of _ 58 (by norm_num) (by norm_num)
  simp only [pyFloatMulNat, roundMantissa53]
  rw [if_neg (by norm_num)]
  rw [lM]
  decide

/-! ## C1 — the controller's branch on an execution report -/

/-- C1 (counterexample): a report with `compile_error` null, empty
`errors` but a non-empty `failures` list is *accepted*: the repair loop
stops on its first cycle without appending any corrective turn, contrary
to the claim that a non-empty `failures` list triggers REPROMPTING. -/
theorem c1_failures_accepted_counterexample :
    (pipelineLoop (fun _ _ => ["t"]) (fun s => s)
        (fun _ => ⟨none, [], [("test_x", "AssertionError: 1 != 2")]⟩)
        "python" 3 [] ["t"])
      = ⟨[], "t", ⟨none, [], [("test_x", "AssertionError: 1 != 2")]⟩, 1⟩
    ∧ controllerNewPrompt "python"
        ⟨none, [], [("test_x", "AssertionError: 1 != 2")]⟩ = none
    ∧ ([("test_x", "AssertionError: 1 != 2")] : List (String × String)) ≠ [] := by
  refine ⟨rfl, rfl, by decide⟩

/-- C1 (amended): the repair loop accepts exactly when `compile_error`
is falsy and `errors` is empty — `failures` is never consulted — and on
any rejection it appends the rejected candidate as an assistant turn and
the corrective user turn before continuing. -/
theorem c1_accept_reprompt_branch :
    ∀ (language : String) (r : CtrlReport),
      (controllerNewPrompt language r = none ↔
        (r.compile_error.getD "" = "" ∧ r.errors = []))
      ∧ (∀ (gen : List Msg → Nat → List String) (post : String → String)
          (runC : String → CtrlReport) (fuel : Nat) (conv : List Msg)
          (response : List String),
          runC (post (response.getD 0 "")) = r →
          controllerNewPrompt language r ≠ none →
          conv ++ [⟨"assistant", post (response.getD 0 "")⟩,
              ⟨"user", (controllerNewPrompt language r).getD ""⟩] <+:
            (pipelineLoop gen post runC language (fuel + 1) conv
              response).messages) := by
  intro language r
  constructor
  · simp only [controllerNewPrompt, pyTruthy]
    split
    · next h =>
      simp only [bne_iff_ne, ne_eq, Decidable.not_not] at h
      simp [h]
    · next h =>
      simp only [bne_iff_ne, ne_eq, Decidable.not_not] at h
      split
      · next he => simp [h, List.isEmpty_iff.mp he]
      · next he =>
        simp only [List.isEmpty_iff] at he
        simp [h, he]
  · intro gen post runC fuel conv response hrun hne
    rw [pipelineLoop, hrun]
    cases hcp : controllerNewPrompt language r with
    | none => exact absurd hcp hne
    | some np =>
      cases fuel with
      | zero => exact List.prefix_refl _
      | succ f2 => exact pipelineLoop_extendsConv gen post runC language _ _ _

/-- C1 (witness): a concrete compile-error report is rejected and the
loop's conversation extends the input conversation with the assistant
and corrective user turns. -/
theorem c1_accept_reprompt_branch_witness :
    (controllerNewPrompt "python" ⟨some "err", [], []⟩ = none ↔
      ((⟨some "err", [], []⟩ : CtrlReport).compile_error.getD "" = ""
        ∧ (⟨some "err", [], []⟩ : CtrlReport).errors = []))
    ∧ ([] : List Msg) ++ [⟨"assistant", (fun s => s) ((["t"] : List String).getD 0 "")⟩,
        ⟨"user", (controllerNewPrompt "python" ⟨some "err", [], []⟩).getD ""⟩] <+:
      (pipelineLoop (fun _ _ => ["t"]) (fun s => s)
        (fun _ => ⟨some "err", [], []⟩) "python" (0 + 1) [] ["t"]).messages :=
  ⟨(c1_accept_reprompt_branch "python" ⟨some "err", [], []⟩).1,
    (c1_accept_reprompt_branch "python" ⟨some "err", [], []⟩).2
      (fun _ _ => ["t"]) (fun s => s) (fun _ => ⟨some "err", [], []⟩)
      0 [] ["t"] rfl (by decide)⟩

/-! ## C2 — append-only conversation -/

/-- C2 (counterexample): with two samples the pre-reduction step
overwrites the content of the user message at index 1 in place, so the
initial conversation is not a prefix of the returned one and the
existing message's content has changed. -/
theorem c2_prereduction_mutates_counterexample :
    ((generateTestsPipeline (fun _ n => List.replicate n "t") (fun s => s)
        (fun _ => ⟨none, [], []⟩) "python"
        [⟨"system", "s"⟩, ⟨"user", "u"⟩] 2 1).messages.getD 1
          ⟨"", ""⟩).content ≠ "u"
    ∧ ¬ ([⟨"system", "s"⟩, ⟨"user", "u"⟩] <+:
        (generateTestsPipeline (fun _ n => List.replicate n "t") (fun s => s)
          (fun _ => ⟨none, [], []⟩) "python"
          [⟨"system", "s"⟩, ⟨"user", "u"⟩] 2 1).messages) := by
  constructor
  · decide
  · decide

/-- C2 (amended): each REPROMPTING step of the repair loop only appends
messages (the input conversation is always a prefix of the returned
one), and the whole pipeline is append-only whenever the initial request
returns at most one sample; only the pre-reduction step for multiple
samples rewrites an existing message (see the counterexample). -/
theorem c2_append_only :
    ∀ (gen : List Msg → Nat → List String) (post : String → String)
      (runC : String → CtrlReport) (language : String),
      (∀ (fuel : Nat) (conv : List Msg) (response : List String),
        conv <+: (pipelineLoop gen post runC language fuel conv
          response).messages)
      ∧ (∀ (initialPrompt : List Msg) (nSamples maxIter : Nat),
          (gen initialPrompt nSamples).length ≤ 1 →
          initialPrompt <+: (generateTestsPipeline gen post runC language
            initialPrompt nSamples maxIter).messages) := by
  intro gen post runC language
  refine ⟨pipelineLoop_extendsConv gen post runC language, ?_⟩
  intro initialPrompt nSamples maxIter h
  simp only [generateTestsPipeline]
  rw [if_neg (by omega)]
  exact pipelineLoop_extendsConv gen post runC language _ _ _

/-- C2 (witness): with a single-sample completion function the initial
conversation survives as a prefix of the pipeline's result. -/
theorem c2_append_only_witness :
    ((fun (_ : List Msg) (_ : Nat) => ["t"]) [⟨"user", "u"⟩] 1).length ≤ 1
    ∧ [⟨"user", "u"⟩] <+: (generateTestsPipeline
        (fun _ _ => ["t"]) (fun s => s) (fun _ => ⟨none, [], []⟩) "python"
        [⟨"user", "u"⟩] 1 1).messages :=
  ⟨by decide,
    (c2_append_only (fun _ _ => ["t"]) (fun s => s)
      (fun _ => ⟨none, [], []⟩) "python").2 [⟨"user", "u"⟩] 1 1 (by decide)⟩

/-! ## C8 — bounded iteration -/

/-- C8: for any completion service (even one returning the same failing
candidate forever), any post-processor and any sandbox, the pipeline
with `max_iter = k ≥ 1` performs between 1 and `k` post-process/evaluate
cycles and returns the last attempted candidate together with the
report that very candidate produced. -/
theorem c8_iteration_bound :
    ∀ (gen : List Msg → Nat → List String) (post : String → String)
      (runC : String → CtrlReport) (language : String)
      (initialPrompt : List Msg) (nSamples maxIter : Nat),
      1 ≤ maxIter →
      1 ≤ (generateTestsPipeline gen post runC language initialPrompt
          nSamples maxIter).evals
      ∧ (generateTestsPipeline gen post runC language initialPrompt
          nSamples maxIter).evals ≤ maxIter
      ∧ (generateTestsPipeline gen post runC language initialPrompt
            nSamples maxIter).report
          = runC (generateTestsPipeline gen post runC language initialPrompt
            nSamples maxIter).test
      ∧ ∃ resp, (generateTestsPipeline gen post runC language
          initialPrompt nSamples maxIter).test = post resp := by
  intro gen post runC language initialPrompt nSamples maxIter h
  rw [generateTestsPipeline]
  split
  · exact pipelineLoop_spec gen post runC language maxIter _ _ h
  · exact pipelineLoop_spec gen post runC language maxIter _ _ h

/-- C8 (witness): a concrete pipeline run with `max_iter = 1` performs
exactly one evaluate cycle and returns that candidate's report. -/
theorem c8_iteration_bound_witness :
    (1 : Nat) ≤ 1
    ∧ (1 ≤ (generateTestsPipeline (fun _ _ => ["t"]) (fun s => s)
        (fun _ => ⟨none, [], []⟩) "python" [] 1 1).evals
      ∧ (generateTestsPipeline (fun _ _ => ["t"]) (fun s => s)
        (fun _ => ⟨none, [], []⟩) "python" [] 1 1).evals ≤ 1
      ∧ (generateTestsPipeline (fun _ _ => ["t"]) (fun s => s)
          (fun _ => ⟨none, [], []⟩) "python" [] 1 1).report
        = (fun _ => (⟨none, [], []⟩ : CtrlReport))
          ((generateTestsPipeline (fun _ _ => ["t"]) (fun s => s)
            (fun _ => ⟨none, [], []⟩) "python" [] 1 1).test)
      ∧ ∃ resp, (generateTestsPipeline (fun _ _ => ["t"]) (fun s => s)
          (fun _ => ⟨none, [], []⟩) "python" [] 1 1).test
        = (fun s => s) resp) :=
  ⟨by decide,
    c8_iteration_bound (fun _ _ => ["t"]) (fun s => s)
      (fun _ => ⟨none, [], []⟩) "python" [] 1 1 (by decide)⟩

/-! ## C10 — the textual anchor precondition of `find_lines` -/

/-- C10: `find_lines` returns a line range exactly when the stripped
object lines occur as a contiguous block inside the stripped module
lines; when no such block exists it raises (`none`), and
`compute_coverage` on any non-empty record list then raises as well. -/
theorem c10_find_lines_precondition :
    ∀ (moduleLines objLines : List String), objLines ≠ [] →
      ((findLines moduleLines objLines).isSome ↔
        ∃ i, ((moduleLines.map pyStrip).drop i).take objLines.length
          = objLines.map pyStrip)
      ∧ (∀ r rs, findLines moduleLines objLines = none →
          computeCoverage moduleLines objLines (r :: rs) = none) := by
  intro moduleLines objLines hne
  have htne : objLines.map pyStrip ≠ [] := by simpa using hne
  have hport : ((objLines.map pyStrip).isEmpty) ≠ true := by
    simpa [List.isEmpty_iff] using htne
  refine ⟨?_, ?_⟩
  · rcases hfind : (List.range (moduleLines.map pyStrip).length).find?
        (fun i => ((moduleLines.map pyStrip).drop i).take
          (objLines.map pyStrip).length == objLines.map pyStrip) with _ | i
    · have hfl : findLines moduleLines objLines = none := by
        simp only [findLines]
        rw [if_neg hport, hfind]
      rw [hfl]
      simp only [Option.isSome_none, Bool.false_eq_true, false_iff]
      rintro ⟨i, hi⟩
      have hilt : i < (moduleLines.map pyStrip).length := by
        by_contra hge
        rw [List.drop_eq_nil_of_le (by omega)] at hi
        simp only [List.take_nil] at hi
        exact htne hi.symm
      have hnot := List.find?_eq_none.mp hfind i (List.mem_range.mpr hilt)
      apply hnot
      simpa [List.length_map] using hi
    · have hfl : findLines moduleLines objLines
          = some (i + 1, i + (objLines.map pyStrip).length) := by
        simp only [findLines]
        rw [if_neg hport, hfind]
      rw [hfl]
      simp only [Option.isSome_some, true_iff]
      have hp := List.find?_some hfind
      exact ⟨i, by simpa [List.length_map] using hp⟩
  · intro r rs hnone
    simp [computeCoverage, hnone]

/-- C10 (witness): for a one-line object that occurs nowhere in the
module, `find_lines` is `none` and both directions at the concrete
input. -/
theorem c10_find_lines_precondition_witness :
    (["x"] : List String) ≠ []
    ∧ (((findLines ["y"] ["x"]).isSome ↔
        ∃ i, (((["y"] : List String).map pyStrip).drop i).take
          (["x"] : List String).length = (["x"] : List String).map pyStrip)
      ∧ (∀ r rs, findLines ["y"] ["x"] = none →
          computeCoverage ["y"] ["x"] (r :: rs) = none)) :=
  ⟨by decide, c10_find_lines_precondition ["y"] ["x"] (by decide)⟩

/-! ## C7 — the coverage round trip -/

/-- C7: `compute_coverage` on zero records returns exactly 0; on a
single record whose executed lines are exactly the located definition
range and whose missing lines are empty, it returns exactly 100. -/
theorem c7_coverage_roundtrip :
    (∀ moduleLines objLines,
      computeCoverage moduleLines objLines [] = some 0)
    ∧ (∀ moduleLines objLines st en,
        findLines moduleLines objLines = some (st, en) →
        computeCoverage moduleLines objLines
          [⟨List.range' st (en + 1 - st), []⟩] = some 100) := by
  constructor
  · intro moduleLines objLines
    simp [computeCoverage]
  · intro moduleLines objLines st en hfl
    have hprops : en + 1 - st = (objLines.map pyStrip).length
        ∧ 1 ≤ (objLines.map pyStrip).length ∧ 1 ≤ st := by
      simp only [findLines] at hfl
      by_cases hempty : ((objLines.map pyStrip).isEmpty) = true
      · rw [if_pos hempty] at hfl; cases hfl
      · rw [if_neg hempty] at hfl
        rcases hfind : (List.range ((moduleLines.map pyStrip)).length).find?
            (fun i => ((moduleLines.map pyStrip).drop i).take
              (objLines.map pyStrip).length == objLines.map pyStrip) with
          _ | i
        · rw [hfind] at hfl; cases hfl
        · rw [hfind] at hfl
          have h1 : st = i + 1 ∧ en = i + (objLines.map pyStrip).length := by
            cases hfl; exact ⟨rfl, rfl⟩
          have h2 : 1 ≤ (objLines.map pyStrip).length := by
            rcases hlen : (objLines.map pyStrip) with _ | ⟨a, l⟩
            · rw [hlen] at hempty; simp at hempty
            · simp
          omega
    obtain ⟨hlen, hpos, hst⟩ := hprops
    have hfilter : (List.range' st (en + 1 - st)).filter
        (fun it => st ≤ it && it ≤ en) = List.range' st (en + 1 - st) := by
      apply List.filter_eq_self.mpr
      intro a ha
      rw [List.mem_range'_1] at ha
      simp only [Bool.and_eq_true, decide_eq_true_eq]
      omega
    have hcoll : collectExecutedMissingLines st en
        [⟨List.range' st (en + 1 - st), []⟩]
        = ((List.range' st (en + 1 - st)).toFinset, ∅) := by
      simp only [collectExecutedMissingLines, List.flatMap_cons,
        List.flatMap_nil, List.append_nil, List.filter_nil,
        List.toFinset_nil]
      rw [hfilter]
      simp
    simp only [computeCoverage, List.isEmpty_cons, Bool.false_eq_true,
      if_false, hfl, hcoll]
    have hcard : (List.range' st (en + 1 - st)).toFinset.card
        = en + 1 - st := by
      rw [List.toFinset_card_of_nodup (List.nodup_range' st (en + 1 - st))]
      exact List.length_range' st 1 (en + 1 - st)
    simp only [Finset.card_empty, Nat.add_zero, hcard]
    rw [if_neg (by omega)]
    congr 1
    exact pyIntTimes100_self _ (by omega)

/-- C7 (witness): the round trip at a concrete one-line module. -/
theorem c7_coverage_roundtrip_witness :
    findLines ["x"] ["x"] = some (1, 1)
    ∧ computeCoverage ["x"] ["x"] [⟨List.range' 1 (1 + 1 - 1), []⟩]
      = some 100 :=
  ⟨by decide, c7_coverage_roundtrip.2 ["x"] ["x"] 1 1 (by decide)⟩

/-! ## C3 — the coverage formula and the zero denominator -/

/-- Filtering a line list to a range and then deduplicating is the same
as restricting the deduplicated set. -/
theorem filter_range_toFinset (st en : Nat) (l : List Nat) :
    (l.filter (fun it => st ≤ it && it ≤ en)).toFinset
      = l.toFinset.filter (fun it => st ≤ it ∧ it ≤ en) := by
  rw [List.toFinset_filter]
  apply Finset.filter_congr
  intro x _
  simp

/-- C3 (counterexample): two concrete failures of the claim.  First, a
50-line object with 29 executed and 21 missing lines: the exact floor
of `29/50 × 100` is 58, but the program's float expression truncates to
57 (the double nearest `29/50` lies just below `0.58`), so the reported
value is not the integer floor.  Second, a non-empty record list whose
lines all fall outside the located range leaves both sets empty and
`compute_coverage` raises `ZeroDivisionError` (`none`) instead of
reporting 0. -/
theorem c3_coverage_counterexample :
    computeCoverage (List.replicate 50 "x") (List.replicate 50 "x")
      [⟨List.range' 1 29, List.range' 30 21⟩] = some 57
    ∧ 29 * 100 / (29 + 21) = 58
    ∧ computeCoverage ["def f():", "    return 1"]
      ["def f():", "    return 1"] [⟨[5], [7]⟩] = none
    ∧ ([⟨[5], [7]⟩] : List TestMeta) ≠ [] := by
  have hfl : floorLog2Rat 29 50 = -1 := by
    rw [floorLog2Rat, log2_eq_of 50 5 (by norm_num) (by norm_num)]
    rw [show (29 * 2 ^ (5 + 1) / 50 : Nat) = 37 by norm_num]
    rw [log2_eq_of 37 5 (by norm_num) (by norm_num)]
    norm_num
  have hrat : pyFloatOfRat 29 50 = (5224175567749775, -53) := by
    simp only [pyFloatOfRat, hfl]
    norm_num [Int.toNat_ofNat, roundHalfEven]
    decide
  have hmul : pyFloatMulNat (5224175567749775, -53) 100
      = (8162774324609023, -47) := by
    simp only [pyFloatMulNat, roundMantissa53]
    rw [if_neg (by norm_num)]
    rw [show ((5224175567749775 : Nat) * 100) = 522417556774977500 by
      norm_num]
    rw [log2_eq_of 522417556774977500 58 (by norm_num) (by norm_num)]
    norm_num [roundHalfEven]
  have hval : pyIntTimes100 29 50 = 57 := by
    rw [show pyIntTimes100 29 50
      = dyadicFloor (pyFloatMulNat (pyFloatOfRat 29 50) 100) from rfl]
    rw [hrat, hmul]
    norm_num [dyadicFloor]
    decide
  refine ⟨?_, by decide, by decide, by decide⟩
  have hA : computeCoverage (List.replicate 50 "x") (List.replicate 50 "x")
      [⟨List.range' 1 29, List.range' 30 21⟩]
      = some (pyIntTimes100 29 50) := by rfl
  rw [hA, hval]

/-- C3 (amended): on a non-empty record list with a located range,
`compute_coverage` reports `int(|executed| / (|executed| + |missing|)
× 100)` evaluated in IEEE binary64 arithmetic over the
range-restricted, subtracted sets whenever the denominator is positive
— which can fall one below the exact integer floor (29 executed, 21
missing gives 57, not 58); when the denominator is 0 it raises
`ZeroDivisionError` (`none`) rather than reporting 0. -/
theorem c3_coverage_formula :
    ∀ (moduleLines objLines : List String) (testMetadata : List TestMeta)
      (st en : Nat),
      testMetadata ≠ [] →
      findLines moduleLines objLines = some (st, en) →
      ((coverageExec st en testMetadata).card
          + (coverageMiss st en testMetadata).card ≠ 0 →
        computeCoverage moduleLines objLines testMetadata
          = some (pyIntTimes100 (coverageExec st en testMetadata).card
            ((coverageExec st en testMetadata).card
              + (coverageMiss st en testMetadata).card)))
      ∧ ((coverageExec st en testMetadata).card
          + (coverageMiss st en testMetadata).card = 0 →
        computeCoverage moduleLines objLines testMetadata = none) := by
  intro moduleLines objLines testMetadata st en hmeta hfl
  have hsets : collectExecutedMissingLines st en testMetadata
      = (coverageExec st en testMetadata, coverageMiss st en testMetadata) := by
    simp only [collectExecutedMissingLines, coverageExec, coverageMiss]
    rw [filter_range_toFinset, filter_range_toFinset]
  have hbase : computeCoverage moduleLines objLines testMetadata
      = if (collectExecutedMissingLines st en testMetadata).1.card
          + (collectExecutedMissingLines st en testMetadata).2.card = 0
        then none
        else some (pyIntTimes100
          (collectExecutedMissingLines st en testMetadata).1.card
          ((collectExecutedMissingLines st en testMetadata).1.card
            + (collectExecutedMissingLines st en testMetadata).2.card)) := by
    simp only [computeCoverage, hfl]
    rw [if_neg (by simpa [List.isEmpty_iff] using hmeta)]
  rw [hbase, hsets]
  constructor
  · intro hne
    rw [if_neg hne]
  · intro hz
    rw [if_pos hz]

/-- C3 (witness): a concrete record covering the whole located range,
with a positive denominator. -/
theorem c3_coverage_formula_witness :
    ([⟨[1], [5]⟩] : List TestMeta) ≠ []
    ∧ findLines ["x"] ["x"] = some (1, 1)
    ∧ computeCoverage ["x"] ["x"] [⟨[1], [5]⟩]
      = some (pyIntTimes100 (coverageExec 1 1 [⟨[1], [5]⟩]).card
        ((coverageExec 1 1 [⟨[1], [5]⟩]).card
          + (coverageMiss 1 1 [⟨[1], [5]⟩]).card)) :=
  ⟨by decide, by decide,
    (c3_coverage_formula ["x"] ["x"] [⟨[1], [5]⟩] 1 1 (by decide)
      (by decide)).1 (by decide)⟩

/-! ## C4 — the report dichotomy of the sandbox bootstrap -/

/-- C4: the two intended paths of `run_tests_with_coverage_python`
satisfy the never-partially-filled dichotomy, but when the in-container
coverage serialization raises (`covFiles = none`, e.g. no coverage data
was collected) the bare `except:` swallows the error and an empty dict
— with `compile_error` absent and nothing populated — escapes; with an
empty files dict the test fields are populated but the line fields and
`compile_error` are absent.  Both contradict the invariant (and the
script's own docstring listing the required keys). -/
theorem c4_report_dichotomy_violated :
    runTestsWithCoveragePython (.ok ⟨1, [], []⟩) none = emptyRunnerReport
    ∧ ¬ reportWellFormed emptyRunnerReport
    ∧ ¬ reportWellFormed (runTestsWithCoveragePython (.ok ⟨1, [], []⟩)
        (some []))
    ∧ (∀ e covFiles,
        reportWellFormed (runTestsWithCoveragePython (.error e) covFiles))
    ∧ (∀ res f fs,
        reportWellFormed (runTestsWithCoveragePython (.ok res)
          (some (f :: fs)))) := by
  refine ⟨rfl, ?_, ?_, ?_, ?_⟩
  · rintro (⟨⟨e, he⟩, -⟩ | ⟨hc, -⟩)
    · simp [emptyRunnerReport] at he
    · simp [emptyRunnerReport] at hc
  · rintro (⟨⟨e, he⟩, -⟩ | ⟨hc, -⟩)
    · simp [runTestsWithCoveragePython, emptyRunnerReport] at he
    · simp [runTestsWithCoveragePython, emptyRunnerReport] at hc
  · intro e covFiles
    exact Or.inl ⟨⟨e, rfl⟩, rfl, rfl, rfl, rfl, rfl⟩
  · intro res f fs
    obtain ⟨fn, ex, mi⟩ := f
    exact Or.inr ⟨rfl, rfl, rfl, rfl, rfl, rfl⟩

/-! ## C6 — import insertion in `postprocess_resp` -/

/-- The inserted import line starts with the character f, whatever the
module and object names are. -/
theorem importString_head (modName objName : String) :
    ("from " ++ modName ++ " import " ++ objName).data.head? = some (Char.ofNat 102) :=
  rfl

/-- The inserted import line differs from any line that does not start
with f. -/
theorem importString_ne (modName objName t : String)
    (h : t.data.head? ≠ some (Char.ofNat 102)) :
    "from " ++ modName ++ " import " ++ objName ≠ t := by
  intro he
  apply h
  rw [← he]
  exact importString_head modName objName

/-- When no line of the candidate matches the import prefix or the
wildcard import, the import is inserted as the first line. -/
theorem insertImportStep_not_found (modName objName : String)
    (lines : List String)
    (h : ¬ ∃ l ∈ lines,
      pyStartsWith l ("from " ++ modName ++ " import " ++ objName) = true
        ∨ l = "from " ++ modName ++ " import *") :
    insertImportStep modName objName lines
      = ("from " ++ modName ++ " import " ++ objName) :: lines := by
  rw [insertImportStep, if_pos]
  rw [List.isEmpty_iff, List.filter_eq_nil_iff]
  intro a ha
  simp only [Bool.or_eq_true, beq_iff_eq, not_or]
  push_neg at h
  have h2 := h a ha
  tauto

/-- When some line already matches the import prefix or equals the
wildcard import, the candidate is left unchanged. -/
theorem insertImportStep_found (modName objName : String)
    (lines : List String)
    (h : ∃ l ∈ lines,
      pyStartsWith l ("from " ++ modName ++ " import " ++ objName) = true
        ∨ l = "from " ++ modName ++ " import *") :
    insertImportStep modName objName lines = lines := by
  rw [insertImportStep, if_neg]
  obtain ⟨l, hl, hp⟩ := h
  intro hemp
  rw [List.isEmpty_iff, List.filter_eq_nil_iff] at hemp
  apply hemp l hl
  simp only [Bool.or_eq_true, beq_iff_eq]
  tauto

/-- The entry-point step keeps a head line that is not a bare
`unittest.main()`, and only adds the two guard lines to the tail. -/
theorem ensureMainStep_cons_head (imp : String)
    (h1 : imp ≠ "unittest.main()") (lines : List String) :
    ∃ rest, ensureMainStep (imp :: lines) = imp :: rest ∧
      ∀ x ∈ rest, x ∈ lines ∨ x = "if __name__ == '__main__':"
        ∨ x = "    unittest.main()" := by
  rw [ensureMainStep]
  split
  · split
    · next hcont =>
      rw [List.erase_cons_tail (by simpa using h1)]
      refine ⟨_, rfl, ?_⟩
      intro x hx
      rcases List.mem_append.mp hx with h | h
      · exact Or.inl (List.mem_of_mem_erase h)
      · rcases List.mem_cons.mp h with h | h
        · exact Or.inr (Or.inl h)
        · exact Or.inr (Or.inr (List.mem_singleton.mp h))
    · refine ⟨_, rfl, ?_⟩
      intro x hx
      rcases List.mem_append.mp hx with h | h
      · exact Or.inl h
      · rcases List.mem_cons.mp h with h | h
        · exact Or.inr (Or.inl h)
        · exact Or.inr (Or.inr (List.mem_singleton.mp h))
  · exact ⟨lines, rfl, fun x hx => Or.inl hx⟩

/-- The code-fence step is the identity (up to `some`) on a candidate
with no "```python" line. -/
theorem stripFenceStep_no_fence (lines : List String)
    (h : "```python" ∉ lines) : stripFenceStep lines = some lines := by
  rw [stripFenceStep, if_neg]
  simpa using h

/-- C6 (counterexample): a fenced candidate that references the target
without importing it.  The import is inserted first, but the final
fence-stripping step keeps only the fenced block, so the processed
source does *not* begin with the import statement. -/
theorem c6_fenced_candidate_counterexample :
    postprocessResp "mod" "add" "```python\nassert add(1, 2) == 3\n```"
      = some "assert add(1, 2) == 3"
    ∧ postprocessLines "mod" "add" "```python\nassert add(1, 2) == 3\n```"
      = some ["assert add(1, 2) == 3"]
    ∧ pyStartsWith "assert add(1, 2) == 3" "from mod import add" = false
    ∧ ¬ ∃ l ∈ pySplit (Char.ofNat 10) "```python\nassert add(1, 2) == 3\n```",
        pyStartsWith l "from mod import add" = true
          ∨ l = "from mod import *" := by
  refine ⟨by decide, by decide, by decide, by decide⟩

/-- C6 (amended): the import is inserted as the first line of the
working line list iff no line starts with the textual prefix
`from <module> import <object>` and no line equals the wildcard import;
and for a candidate with no "```python" fence line, the processed
source then indeed begins with the inserted import. -/
theorem c6_import_insertion :
    ∀ (modName objName test : String),
      (insertImportStep modName objName (pySplit (Char.ofNat 10) test)
          = ("from " ++ modName ++ " import " ++ objName)
            :: pySplit (Char.ofNat 10) test
        ↔ ¬ ∃ l ∈ pySplit (Char.ofNat 10) test,
            pyStartsWith l ("from " ++ modName ++ " import " ++ objName)
              = true ∨ l = "from " ++ modName ++ " import *")
      ∧ ((¬ ∃ l ∈ pySplit (Char.ofNat 10) test,
            pyStartsWith l ("from " ++ modName ++ " import " ++ objName)
              = true ∨ l = "from " ++ modName ++ " import *") →
          "```python" ∉ pySplit (Char.ofNat 10) test →
          ∃ rest, postprocessLines modName objName test
            = some (("from " ++ modName ++ " import " ++ objName)
              :: rest)) := by
  intro modName objName test
  constructor
  · constructor
    · intro heq
      by_contra hex
      rw [insertImportStep_found modName objName _ hex] at heq
      have := congrArg List.length heq
      simp at this
    · exact insertImportStep_not_found modName objName _
  · intro h1 h2
    rw [postprocessLines, insertImportStep_not_found modName objName _ h1]
    obtain ⟨rest, hmain, hmem⟩ := ensureMainStep_cons_head
      ("from " ++ modName ++ " import " ++ objName)
      (importString_ne modName objName _ (by decide))
      (pySplit (Char.ofNat 10) test)
    rw [hmain]
    refine ⟨rest, stripFenceStep_no_fence _ ?_⟩
    intro hfence
    rcases List.mem_cons.mp hfence with h | h
    · exact importString_ne modName objName "```python" (by decide) h.symm
    · rcases hmem _ h with hin | hg | hu
      · exact h2 hin
      · exact absurd hg (by decide)
      · exact absurd hu (by decide)

/-- C6 (witness): a bare one-line candidate without any import line
gets the import inserted, and the processed source begins with it. -/
theorem c6_import_insertion_witness :
    (insertImportStep "mod" "add"
        (pySplit (Char.ofNat 10) "assert add(1, 2) == 3")
        = ("from " ++ "mod" ++ " import " ++ "add")
          :: pySplit (Char.ofNat 10) "assert add(1, 2) == 3"
      ↔ ¬ ∃ l ∈ pySplit (Char.ofNat 10) "assert add(1, 2) == 3",
          pyStartsWith l ("from " ++ "mod" ++ " import " ++ "add") = true
            ∨ l = "from " ++ "mod" ++ " import *")
    ∧ ∃ rest, postprocessLines "mod" "add" "assert add(1, 2) == 3"
        = some (("from " ++ "mod" ++ " import " ++ "add") :: rest) :=
  ⟨(c6_import_insertion "mod" "add" "assert add(1, 2) == 3").1,
    (c6_import_insertion "mod" "add" "assert add(1, 2) == 3").2
      (by decide) (by decide)⟩

/-! ## C9 — statelessness of `get_local_calls` -/

/-- C9: `get_local_calls` resets the shared visitor before every run, so
its result is the same whatever state earlier calls (on this or any
other target) left in the visitor; in particular running it twice on
the same target yields equal sets, and running another target first
changes nothing. -/
theorem c9_get_local_calls_stateless :
    ∀ (a : Analyser) (node : PyFunctionDef) (method : Bool)
      (className : Option String) (s1 s2 : VState),
      (getLocalCalls a node method className s1).1
        = (getLocalCalls a node method className s2).1
      ∧ (getLocalCalls a node method className
          (getLocalCalls a node method className s1).2).1
        = (getLocalCalls a node method className s1).1
      ∧ (∀ (node2 : PyFunctionDef) (m2 : Bool) (c2 : Option String),
          (getLocalCalls a node method className
              (getLocalCalls a node2 m2 c2 s1).2).1
            = (getLocalCalls a node method className emptyVState).1) := by
  intro a node method className s1 s2
  exact ⟨rfl, rfl, fun _ _ _ => rfl⟩

/-! ## C5 — info sheet sections and numbering -/

/-- C5 (counterexample): for a method target with no `__init__` section
but a non-empty class-attribute section, the attribute section keeps
its hardcoded number "3." while the counter is still at 3, so the
sheet numbers its three sections 1, 3, 3 — number 2 is skipped and 3 is
duplicated, contradicting contiguous numbering. -/
theorem c5_method_numbering_counterexample :
    generatePythonInfoSheet .method "m" "import os" "" "" "" "" "C" "" "A"
      = "1. C class is defined in the module called: m\n"
        ++ "3. C attributes:A\n"
        ++ "3. Following imports were made inside the m module:\nimport os\n"
    ∧ ((pySplit (Char.ofNat 10)
        (generatePythonInfoSheet .method "m" "import os" "" "" "" "" "C" ""
          "A")).filter (fun ln => pyStartsWith ln "2. ")) = []
    ∧ ((pySplit (Char.ofNat 10)
        (generatePythonInfoSheet .method "m" "import os" "" "" "" "" "C" ""
          "A")).filter (fun ln => pyStartsWith ln "3. ")).length = 2 := by
  refine ⟨by decide, by decide, by decide⟩

/-- C5 (amended): for a *function* target the claim holds as stated —
the sheet equals the location line followed by exactly the non-empty
sections in order, numbered contiguously from 2 (the location line
being "1."), and with all five optional sections empty it is the
location line alone.  (For method targets the hardcoded "2."/"3."
intro numbering breaks contiguity; see the counterexample.) -/
theorem c5_function_sheet_contiguous :
    ∀ (m i c v t l : String),
      generatePythonInfoSheet .function m i c v t l "" "" ""
        = functionInfoSheetSpec m i c v t l
      ∧ (i = "" → c = "" → v = "" → t = "" → l = "" →
          generatePythonInfoSheet .function m i c v t l "" "" ""
            = "1. Function is defined in the module called: " ++ m
              ++ "\n") := by
  intro m i c v t l
  have hmain : generatePythonInfoSheet .function m i c v t l "" "" ""
      = functionInfoSheetSpec m i c v t l := by
    rcases eq_or_ne i "" with hi | hi <;>
    rcases eq_or_ne c "" with hc | hc <;>
    rcases eq_or_ne v "" with hv | hv <;>
    rcases eq_or_ne t "" with ht | ht <;>
    rcases eq_or_ne l "" with hl | hl <;>
      simp [generatePythonInfoSheet, functionInfoSheetSpec, renderSection,
        String.join, List.range', hi, hc, hv, ht, hl, String.append_assoc]
  refine ⟨hmain, ?_⟩
  intro hi hc hv ht hl
  rw [hmain]
  subst hi; subst hc; subst hv; subst ht; subst hl
  simp [functionInfoSheetSpec, String.join]

/-- C5 (witness): the all-empty instance of the second conjunct at a
concrete module name. -/
theorem c5_function_sheet_contiguous_witness :
    generatePythonInfoSheet .function "m" "" "" "" "" "" "" "" ""
      = functionInfoSheetSpec "m" "" "" "" "" ""
    ∧ generatePythonInfoSheet .function "m" "" "" "" "" "" "" "" ""
      = "1. Function is defined in the module called: " ++ "m" ++ "\n" :=
  ⟨(c5_function_sheet_contiguous "m" "" "" "" "" "").1,
    (c5_function_sheet_contiguous "m" "" "" "" "" "").2 rfl rfl rfl rfl rfl⟩

end AutoTestGen
